import Mathlib

/-
Verification of the registry / ranking / snapshot-synchronization core of
ClickerMSU (src/main/insertion_deleting_sqlite.py) against its design
specification.  The SQLite table `login_id (id INTEGER, username TEXT,
password TEXT)` has no primary key, so it is modelled as an ordered list of
records in insertion (rowid) order; SQL queries over it are translated
clause by clause.  The Telegram channel used for snapshot backup is an
external collaborator: each operation takes the channel response
(success with an assigned file id, or failure) as an explicit argument.
-/

/-- A row of the `login_id` table: `id INTEGER, username TEXT, password TEXT`
(line 141 of insertion_deleting_sqlite.py). -/
structure UserRecord where
  id : Int
  username : String
  password : String
deriving DecidableEq, Repr

/-- The `login_id` table in rowid (insertion) order. -/
abbrev Store := List UserRecord

/-- The three module-level globals `global_data_chat`, `global_data_message`,
`global_file_id` (lines 29-31): where the latest pushed snapshot lives. -/
structure SnapshotPointer where
  channel_id : Int
  anchor_message_id : Int
  blob_id : String
deriving DecidableEq, Repr

/-- The initial values of the three globals at process start (lines 29-31). -/
def initialPointer : SnapshotPointer :=
  ⟨721641425, 430, "BQACAgIAAxkDAAIBrmKbrXkKo_0d3Nbo-Cmr1Zpy0_fWAALzGwACYDDgSFN_tbcimLj3JAQ"⟩

/-- Process-wide mutable state threaded through the handlers: the snapshot
pointer globals and the `login_id` table. -/
structure BotState where
  pointer : SnapshotPointer
  store : Store
deriving DecidableEq, Repr

/-- An inbound message as seen by `register`: either it carries a chat id, or
reading `messg.chat.id` raises (registration started from the command line). -/
abbrev Messg := Option Int

/-- Lines 159-162: `try: user_id = [messg.chat.id] except: user_id = [0]`. -/
def readChatId (m : Messg) : Int :=
  match m with
  | some chat_id => chat_id
  | none => 0

/-- Failure of a channel push or fetch (`telebot` raising an exception). -/
inductive ChannelError where
  | channelError
deriving DecidableEq, Repr

/-- Result of a handler: the new global state, the value returned to the
caller (`Except.error` models an uncaught exception propagating out), and the
lines printed to the server console. -/
structure OpResult (α : Type) where
  state : BotState
  ret : Except ChannelError α
  console : List String
deriving Repr

/- ---------------------------------------------------------------------
Snapshot codec: `json.dumps` of `cursor.fetchall()` (lines 79, 109, 128)
and `json.loads` on the pull path (line 52).  The JSON values involved are
integers, strings and arrays; the byte-level rendering is the Python
standard library, treated as a faithful transport of this tree.
--------------------------------------------------------------------- -/

/-- The fragment of JSON used by the snapshot blob. -/
inductive Json where
  | num (n : Int)
  | str (s : String)
  | arr (elems : List Json)

/-- One table row as serialized by `json.dumps`: the 3-element array
`[id, username, password]`. -/
def encodeRecord (r : UserRecord) : Json :=
  Json.arr [Json.num r.id, Json.str r.username, Json.str r.password]

/-- `json.dumps(cursor.fetchall())`: a JSON array of 3-element arrays. -/
def encode (s : Store) : Json :=
  Json.arr (s.map encodeRecord)

/-- Parse one element of the snapshot array; `none` on a shape mismatch. -/
def decodeRecord : Json → Option UserRecord
  | Json.arr [Json.num i, Json.str u, Json.str p] => some ⟨i, u, p⟩
  | _ => none

/-- Parse the elements of the snapshot array in order, failing if any
element is malformed. -/
def decodeList : List Json → Option Store
  | [] => some []
  | j :: js =>
    match decodeRecord j, decodeList js with
    | some r, some rs => some (r :: rs)
    | _, _ => none

/-- `json.loads` of the fetched blob (line 52), shaped as a registry
snapshot; `none` models a decode failure. -/
def decode : Json → Option Store
  | Json.arr elems => decodeList elems
  | _ => none

/- ---------------------------------------------------------------------
Rank engine: the two SELECTs of `register` (lines 173-180).
--------------------------------------------------------------------- -/

/-- The `ORDER BY id DESC` comparison: `a` sorts before `b` when
`b.id ≤ a.id`. -/
def byIdDesc (a b : UserRecord) : Prop := b.id ≤ a.id

instance : DecidableRel byIdDesc := fun a b => Int.decLe b.id a.id

instance : IsTotal UserRecord byIdDesc :=
  ⟨fun a b => (le_total b.id a.id).elim Or.inl Or.inr⟩

instance : IsTrans UserRecord byIdDesc :=
  ⟨fun _ _ _ hab hbc => le_trans hbc hab⟩

/-- The table reordered by `ORDER BY id DESC`. -/
def sortByIdDesc (s : Store) : Store :=
  List.insertionSort byIdDesc s

/-- Line 173: `SELECT id, username FROM login_id ORDER BY id DESC LIMIT n`
(the source instantiates `n` at 10). -/
def top_n (store : Store) (n : Nat) : List (Int × String) :=
  ((sortByIdDesc store).take n).map (fun r => (r.id, r.username))

/-- Consecutive row numbering starting at `k`, pairing each record with its
`(id, username, row)` output columns. -/
def numberRows : Nat → Store → List (Int × String × Nat)
  | _, [] => []
  | k, r :: rest => (r.id, r.username, k) :: numberRows (k + 1) rest

/-- Line 176: `SELECT id, username, ROW_NUMBER() over(ORDER BY id DESC) AS
Row FROM login_id` — every row with its 1-based rank by descending id. -/
def rankRows (store : Store) : List (Int × String × Nat) :=
  numberRows 1 (sortByIdDesc store)

/-- Line 180: `[i for i in user_place if i[1] == username_in]` — the rank
rows whose username column matches. -/
def rank_entries (store : Store) (username_in : String) : List (Int × String × Nat) :=
  (rankRows store).filter (fun i => i.2.1 == username_in)

/- ---------------------------------------------------------------------
Registry store lookups.
--------------------------------------------------------------------- -/

/-- The fetchone of `SELECT ... FROM login_id WHERE id = x` (line 255):
the first row with the given id, if any. -/
def find_by_id (store : Store) (x : Int) : Option UserRecord :=
  store.find? (fun r => r.id == x)

/- ---------------------------------------------------------------------
Handlers.
--------------------------------------------------------------------- -/

/-- Console output of the guarded `bot.edit_message_media` call
(lines 82-87 and 126-134): on failure the exception is printed and
swallowed.  The argument is the channel response: `some fid` means the edit
succeeded and the channel stored a blob under the fresh id `fid`; `none`
means the edit raised. -/
def pushEditConsole (editResult : Option String) : List String :=
  match editResult with
  | some _ => []
  | none => ["ChannelError"]

/-- Lines 62-89, handler of `/update`: read the whole table, `json.dumps`
it, and `edit_message_media` at the location held in the globals, inside
`try/except` that only prints the exception.  The globals are never
assigned, and the function always returns normally (`None`). -/
def update_data (st : BotState) (editResult : Option String) : OpResult Unit :=
  let _str_data := encode st.store
  ⟨st, Except.ok (), pushEditConsole editResult⟩

/-- Lines 92-134, handler of `/save`: read the whole table, `json.dumps` it,
`send_document` it as a brand-new message (`sendResult = none` models that
call raising — the exception then propagates before the globals are
assigned; `some fid` models success with the channel-assigned document file
id).  On success the three globals are overwritten with
`(messg.chat.id, messg.message_id + 1, file_id)`, the table is re-read and
re-dumped, and a redundant `edit_message_media` is attempted under
`try/except` that only prints. -/
def save_data (st : BotState) (chat_id message_id : Int)
    (sendResult : Option String) (editOk : Bool) : OpResult Unit :=
  let _str_data := encode st.store
  match sendResult with
  | none => ⟨st, Except.error ChannelError.channelError, []⟩
  | some fid =>
    let st' : BotState := ⟨⟨chat_id, message_id + 1, fid⟩, st.store⟩
    if editOk then ⟨st', Except.ok (), []⟩
    else ⟨st', Except.ok (), ["ChannelError"]⟩

/-- Lines 136-186, handler of `/register`.  The `snapshot` argument is the
already-fetched-and-decoded remote blob (`get_data()`, line 142); the
server-case prologue `executemany INSERT` appends its rows to the table
(lines 139-144) — there is no DELETE or DROP, so prior rows survive.  Then
the duplicate check `SELECT username FROM login_id WHERE username = ?`
(lines 164-166): on a hit, print and return `(None, None)`; otherwise
insert `(user_id, username_in, password_in)`, call `update_data(None)`
(whose channel response is `editResult`), and answer with the top-10 query
and the filtered row-number query (lines 169-183). -/
def register (st : BotState) (snapshot : Store) (messg : Messg)
    (username_in password_in : String) (editResult : Option String) :
    BotState × (Option (List (Int × String)) × Option (List (Int × String × Nat))) × List String :=
  let pulled : BotState := ⟨st.pointer, st.store ++ snapshot⟩
  let user_id : Int := readChatId messg
  match pulled.store.find? (fun r => r.username == username_in) with
  | some _ => (pulled, (none, none), [])
  | none =>
    let inserted : BotState := ⟨pulled.pointer, pulled.store ++ [⟨user_id, username_in, password_in⟩]⟩
    let upd := update_data inserted editResult
    let results_10 := top_n upd.state.store 10
    let user_place := rank_entries upd.state.store username_in
    (upd.state, (some results_10, some user_place), upd.console)

/-- Outcome printed / sent by `sighin`. -/
inductive SighinOutcome where
  | notRegistered
  | loggedIn
  | wrongPassword
deriving DecidableEq, Repr

/-- Lines 191-221, handler of `/sighin`: the same appending pull prologue as
`register`, then `SELECT username, password FROM login_id WHERE username = ?`
fetchone and a password comparison; the table is not mutated further. -/
def sighin (st : BotState) (snapshot : Store) (username_in password_in : String) :
    BotState × SighinOutcome :=
  let pulled : BotState := ⟨st.pointer, st.store ++ snapshot⟩
  match pulled.store.find? (fun r => r.username == username_in) with
  | none => (pulled, SighinOutcome.notRegistered)
  | some name_out =>
    if name_out.password == password_in then (pulled, SighinOutcome.loggedIn)
    else (pulled, SighinOutcome.wrongPassword)

/-- Outcome of the `/delete` handler. -/
inductive DeleteOutcome where
  | noSuchUser
  | deleted (people_id : Int)
deriving DecidableEq, Repr

/-- Lines 248-267, handler of `/delete`: fetchone of
`SELECT id FROM login_id WHERE id = people_id`; if no row matches, report
and leave the table alone; otherwise `DELETE FROM login_id WHERE id =
people_id`, which removes every matching row. -/
def delete (st : BotState) (people_id : Int) : BotState × DeleteOutcome :=
  match st.store.find? (fun r => r.id == people_id) with
  | none => (st, DeleteOutcome.noSuchUser)
  | some _ =>
    (⟨st.pointer, st.store.filter (fun r => !(r.id == people_id))⟩,
     DeleteOutcome.deleted people_id)

/-- The three-record store of the worked scenario in the specification. -/
def demoStore : Store :=
  [⟨1, "alice", "pw1"⟩, ⟨5, "bob", "pw2"⟩, ⟨3, "carol", "pw3"⟩]

/- ---------------------------------------------------------------------
Helper lemmas.
--------------------------------------------------------------------- -/

/-- Unfolding of `register` when the duplicate check misses. -/
theorem register_of_find_none (st : BotState) (snapshot : Store) (m : Messg)
    (u p : String) (er : Option String)
    (h : (st.store ++ snapshot).find? (fun r => r.username == u) = none) :
    register st snapshot m u p er =
      (⟨st.pointer, (st.store ++ snapshot) ++ [⟨readChatId m, u, p⟩]⟩,
       (some (top_n ((st.store ++ snapshot) ++ [⟨readChatId m, u, p⟩]) 10),
        some (rank_entries ((st.store ++ snapshot) ++ [⟨readChatId m, u, p⟩]) u)),
       pushEditConsole er) := by
  simp [register, update_data, h]

/-- Unfolding of `register` when the duplicate check hits. -/
theorem register_of_find_some (st : BotState) (snapshot : Store) (m : Messg)
    (u p : String) (er : Option String) (r : UserRecord)
    (h : (st.store ++ snapshot).find? (fun x => x.username == u) = some r) :
    register st snapshot m u p er =
      (⟨st.pointer, st.store ++ snapshot⟩, (none, none), []) := by
  simp [register, h]

/-- C2: decoding the encoding of any snapshot, including the empty one,
gives back exactly that snapshot. -/
theorem decode_encode_roundtrip (s : Store) : decode (encode s) = some s := by
  have h : decodeList (s.map encodeRecord) = some s := by
    induction s with
    | nil => rfl
    | cons r rs ih => simp [List.map_cons, decodeList, decodeRecord, encodeRecord, ih]
  simpa [encode, decode] using h

/-- If a record of maximal id occurs in a list sorted by descending id whose
ids are pairwise distinct, it is the head. -/
theorem sorted_head_of_max :
    ∀ (t : Store) (r : UserRecord), List.Sorted byIdDesc t →
      ((t.map UserRecord.id).Nodup) → r ∈ t → (∀ x ∈ t, x.id ≤ r.id) →
      ∃ t', t = r :: t' := by
  intro t
  cases t with
  | nil => intro r _ _ hr _; cases hr
  | cons x xs =>
    intro r hs hnd hr hmax
    rcases List.mem_cons.mp hr with h | h
    · exact ⟨xs, by rw [h]⟩
    · exfalso
      have hx : r.id ≤ x.id := (List.sorted_cons.mp hs).1 r h
      have hx' : x.id ≤ r.id := hmax x (List.mem_cons_self x xs)
      have heq : x.id = r.id := le_antisymm hx' hx
      have hmem : x.id ∈ xs.map UserRecord.id := by
        rw [heq]; exact List.mem_map_of_mem UserRecord.id h
      have hnotin : x.id ∉ xs.map UserRecord.id := by
        have := hnd
        simp only [List.map_cons, List.nodup_cons] at this
        exact this.1
      exact hnotin hmem

/-- If a record of minimal id occurs in a list sorted by descending id whose
ids are pairwise distinct, its numbered row is the last one. -/
theorem numberRows_last_of_min :
    ∀ (t : Store) (r : UserRecord), List.Sorted byIdDesc t →
      ((t.map UserRecord.id).Nodup) → r ∈ t → (∀ x ∈ t, r.id ≤ x.id) →
      ∀ k, (r.id, r.username, k + t.length - 1) ∈ numberRows k t := by
  intro t
  induction t with
  | nil => intro r _ _ hr _ _; cases hr
  | cons x xs ih =>
    intro r hs hnd hr hmin k
    rcases List.mem_cons.mp hr with h | h
    · have hxs : xs = [] := by
        cases xs with
        | nil => rfl
        | cons y ys =>
          exfalso
          have h1 : y.id ≤ x.id := (List.sorted_cons.mp hs).1 y (List.mem_cons_self y ys)
          have h2 : x.id ≤ y.id := by
            have := hmin y (List.mem_cons_of_mem x (List.mem_cons_self y ys))
            rw [h] at this; exact this
          have heq : x.id = y.id := le_antisymm h2 h1
          have hnotin : x.id ∉ (y :: ys).map UserRecord.id := by
            have := hnd
            simp only [List.map_cons, List.nodup_cons] at this
            exact this.1
          exact hnotin (by rw [heq]; exact List.mem_map_of_mem UserRecord.id (List.mem_cons_self y ys))
      subst hxs
      subst h
      simp [numberRows]
    · have hs' : List.Sorted byIdDesc xs := (List.sorted_cons.mp hs).2
      have hnd' : (xs.map UserRecord.id).Nodup := by
        have := hnd
        simp only [List.map_cons, List.nodup_cons] at this
        exact this.2
      have hmin' : ∀ y ∈ xs, r.id ≤ y.id := fun y hy => hmin y (List.mem_cons_of_mem x hy)
      have hmem := ih r hs' hnd' h hmin' (k + 1)
      have harith : (k + 1) + xs.length - 1 = k + (x :: xs).length - 1 := by
        simp [List.length_cons]
      rw [harith] at hmem
      exact List.mem_cons_of_mem _ hmem

/-- Every numbered row originates from a record of the underlying list. -/
theorem mem_numberRows_username :
    ∀ (t : Store) (k : Nat) (e : Int × String × Nat), e ∈ numberRows k t →
      ∃ r ∈ t, e.2.1 = r.username := by
  intro t
  induction t with
  | nil => intro k e he; cases he
  | cons x xs ih =>
    intro k e he
    rcases List.mem_cons.mp he with h | h
    · exact ⟨x, List.mem_cons_self x xs, by rw [h]⟩
    · obtain ⟨r, hr, hre⟩ := ih (k + 1) e h
      exact ⟨r, List.mem_cons_of_mem x hr, hre⟩

/-- C7: over a store with pairwise distinct ids, the rank filter gives the
record with the largest id rank 1, the record with the smallest id rank N,
and an absent username no entries. -/
theorem rank_of_spec (store : Store)
    (hnd : (store.map UserRecord.id).Nodup) :
    (∀ r ∈ store, (∀ x ∈ store, x.id ≤ r.id) →
      (r.id, r.username, 1) ∈ rank_entries store r.username)
    ∧ (∀ r ∈ store, (∀ x ∈ store, r.id ≤ x.id) →
      (r.id, r.username, store.length) ∈ rank_entries store r.username)
    ∧ (∀ u, (∀ r ∈ store, r.username ≠ u) → rank_entries store u = []) := by
  have hperm : List.Perm (sortByIdDesc store) store :=
    List.perm_insertionSort byIdDesc store
  have hsorted : List.Sorted byIdDesc (sortByIdDesc store) :=
    List.sorted_insertionSort byIdDesc store
  have hnd' : ((sortByIdDesc store).map UserRecord.id).Nodup :=
    ((hperm.map UserRecord.id).nodup_iff).mpr hnd
  refine ⟨?_, ?_, ?_⟩
  · intro r hr hmax
    have hr' : r ∈ sortByIdDesc store := hperm.mem_iff.mpr hr
    have hmax' : ∀ x ∈ sortByIdDesc store, x.id ≤ r.id :=
      fun x hx => hmax x (hperm.mem_iff.mp hx)
    obtain ⟨t', ht⟩ := sorted_head_of_max (sortByIdDesc store) r hsorted hnd' hr' hmax'
    have hmem : (r.id, r.username, 1) ∈ rankRows store := by
      rw [rankRows, ht]
      exact List.mem_cons_self _ _
    exact List.mem_filter.mpr ⟨hmem, by simp⟩
  · intro r hr hmin
    have hr' : r ∈ sortByIdDesc store := hperm.mem_iff.mpr hr
    have hmin' : ∀ x ∈ sortByIdDesc store, r.id ≤ x.id :=
      fun x hx => hmin x (hperm.mem_iff.mp hx)
    have hmem := numberRows_last_of_min (sortByIdDesc store) r hsorted hnd' hr' hmin' 1
    have hlen : (sortByIdDesc store).length = store.length := hperm.length_eq
    have harith : 1 + (sortByIdDesc store).length - 1 = store.length := by omega
    rw [harith] at hmem
    exact List.mem_filter.mpr ⟨hmem, by simp⟩
  · intro u hu
    apply List.filter_eq_nil_iff.mpr
    intro e he
    obtain ⟨r, hr, hre⟩ := mem_numberRows_username (sortByIdDesc store) 1 e he
    have hrs : r ∈ store := hperm.mem_iff.mp hr
    intro hbeq
    exact hu r hrs (by rw [← hre]; exact eq_of_beq hbeq)

/-- C7 witness: the scenario store has distinct ids; bob (largest id 5) has
rank 1, alice (smallest id 1) has rank 3, and dave has no entries. -/
theorem rank_of_spec_witness :
    (5, "bob", 1) ∈ rank_entries demoStore "bob"
    ∧ (1, "alice", 3) ∈ rank_entries demoStore "alice"
    ∧ rank_entries demoStore "dave" = [] :=
  ⟨(rank_of_spec demoStore (by decide)).1 ⟨5, "bob", "pw2"⟩ (by decide) (by decide),
   (rank_of_spec demoStore (by decide)).2.1 ⟨1, "alice", "pw1"⟩ (by decide) (by decide),
   (rank_of_spec demoStore (by decide)).2.2 "dave" (by decide)⟩

/-- C6: `top_n k` never returns more than `k` entries and its entries are
ordered by non-increasing id, and on the specification scenario store
`top_n 3` is exactly `[(5, bob), (3, carol), (1, alice)]`. -/
theorem top_n_spec :
    (∀ (store : Store) (k : Nat),
      (top_n store k).length ≤ k
      ∧ (top_n store k).Pairwise (fun a b => b.1 ≤ a.1))
    ∧ top_n demoStore 3 = [(5, "bob"), (3, "carol"), (1, "alice")] := by
  constructor
  · intro store k
    constructor
    · simp [top_n, List.length_take]
    · have hsorted : List.Sorted byIdDesc (sortByIdDesc store) :=
        List.sorted_insertionSort byIdDesc store
      have htake : ((sortByIdDesc store).take k).Pairwise byIdDesc :=
        hsorted.sublist (List.take_sublist k (sortByIdDesc store))
      exact List.pairwise_map.mpr htake
  · decide

/-- C8: delete on an id with at least one matching record reports deletion
and makes a lookup of that id miss; on an absent id it reports no such user
and leaves the whole state untouched. -/
theorem delete_spec (st : BotState) (x : Int) :
    ((∃ r ∈ st.store, r.id = x) →
      (delete st x).2 = DeleteOutcome.deleted x
      ∧ find_by_id (delete st x).1.store x = none)
    ∧ ((∀ r ∈ st.store, r.id ≠ x) →
      (delete st x).2 = DeleteOutcome.noSuchUser ∧ (delete st x).1 = st) := by
  constructor
  · intro hex
    have hsome : (st.store.find? (fun r => r.id == x)).isSome := by
      apply List.find?_isSome.mpr
      obtain ⟨r, hr, hrx⟩ := hex
      exact ⟨r, hr, by simp [hrx]⟩
    obtain ⟨r0, hr0⟩ := Option.isSome_iff_exists.mp hsome
    constructor
    · simp [delete, hr0]
    · simp only [delete, hr0, find_by_id]
      apply List.find?_eq_none.mpr
      intro y hy
      have hmem := (List.mem_filter.mp hy).2
      simpa using hmem
  · intro hall
    have hnone : st.store.find? (fun r => r.id == x) = none := by
      apply List.find?_eq_none.mpr
      intro y hy
      simpa using hall y hy
    constructor <;> simp [delete, hnone]

/-- C8 witness: deleting id 7 from a store holding it reports deletion and
id 7 then misses; deleting id 9 there reports no such user and changes
nothing. -/
theorem delete_spec_witness :
    ((delete ⟨initialPointer, [⟨7, "a", "p"⟩]⟩ 7).2 = DeleteOutcome.deleted 7
      ∧ find_by_id (delete ⟨initialPointer, [⟨7, "a", "p"⟩]⟩ 7).1.store 7 = none)
    ∧ ((delete ⟨initialPointer, [⟨7, "a", "p"⟩]⟩ 9).2 = DeleteOutcome.noSuchUser
      ∧ (delete ⟨initialPointer, [⟨7, "a", "p"⟩]⟩ 9).1 = ⟨initialPointer, [⟨7, "a", "p"⟩]⟩) :=
  ⟨(delete_spec ⟨initialPointer, [⟨7, "a", "p"⟩]⟩ 7).1 ⟨⟨7, "a", "p"⟩, by decide, rfl⟩,
   (delete_spec ⟨initialPointer, [⟨7, "a", "p"⟩]⟩ 9).2 (by decide)⟩

/-- C9: when at least one record carries the requested id, delete removes
every record with that id and keeps the multiplicity of every other record
unchanged. -/
theorem delete_all_matches (st : BotState) (x : Int)
    (h : ∃ r ∈ st.store, r.id = x) :
    (∀ r ∈ (delete st x).1.store, r.id ≠ x)
    ∧ (∀ r : UserRecord, r.id ≠ x → (delete st x).1.store.count r = st.store.count r) := by
  have hsome : (st.store.find? (fun r => r.id == x)).isSome := by
    apply List.find?_isSome.mpr
    obtain ⟨r, hr, hrx⟩ := h
    exact ⟨r, hr, by simp [hrx]⟩
  obtain ⟨r0, hr0⟩ := Option.isSome_iff_exists.mp hsome
  constructor
  · intro r hrmem
    simp only [delete, hr0] at hrmem
    have hmem := (List.mem_filter.mp hrmem).2
    simpa using hmem
  · intro r hrx
    simp only [delete, hr0]
    exact List.count_filter (by simpa using hrx)

/-- C9 witness: two of three records share id 7; deleting id 7 removes both
of them and keeps the count of every record with another id. -/
theorem delete_all_matches_witness :
    (∀ r ∈ (delete ⟨initialPointer, [⟨7, "a", "p"⟩, ⟨7, "b", "q"⟩, ⟨3, "c", "r"⟩]⟩ 7).1.store,
      r.id ≠ 7)
    ∧ (∀ r : UserRecord, r.id ≠ 7 →
      (delete ⟨initialPointer, [⟨7, "a", "p"⟩, ⟨7, "b", "q"⟩, ⟨3, "c", "r"⟩]⟩ 7).1.store.count r
        = [⟨7, "a", "p"⟩, ⟨7, "b", "q"⟩, ⟨3, "c", "r"⟩].count r) :=
  delete_all_matches ⟨initialPointer, [⟨7, "a", "p"⟩, ⟨7, "b", "q"⟩, ⟨3, "c", "r"⟩]⟩ 7
    ⟨⟨7, "a", "p"⟩, by decide, rfl⟩

/-- C10: a register whose message has no readable chat id behaves exactly
like one whose chat id is 0 — same duplicate check, same results — and on a
fresh username the new record is inserted with id 0. -/
theorem register_without_chat_id :
    (∀ (st : BotState) (snap : Store) (u p : String) (er : Option String),
      register st snap none u p er = register st snap (some 0) u p er)
    ∧ (∀ (st : BotState) (snap : Store) (u p : String) (er : Option String),
      (∀ r ∈ st.store ++ snap, r.username ≠ u) →
      (register st snap none u p er).1.store = (st.store ++ snap) ++ [⟨0, u, p⟩]) := by
  constructor
  · intro st snap u p er; rfl
  · intro st snap u p er hall
    have hnone : (st.store ++ snap).find? (fun r => r.username == u) = none := by
      apply List.find?_eq_none.mpr
      intro y hy
      simpa using hall y hy
    rw [register_of_find_none st snap none u p er hnone]
    rfl

/-- C10 witness: registering the fresh username u from the command line
(no chat id) on an empty store inserts the record with id 0. -/
theorem register_without_chat_id_witness :
    (register ⟨initialPointer, []⟩ [] none "u" "p" (some "FID")).1.store
      = (([] : Store) ++ []) ++ [⟨0, "u", "p"⟩] :=
  register_without_chat_id.2 ⟨initialPointer, []⟩ [] "u" "p" (some "FID") (by decide)

/-- C1 counterexample: from an initial store already holding two records
with username u (the claim quantifies over any initial store), the second
of two register calls for u does answer `(None, None)`, but the store then
holds two records for u, not exactly one. -/
theorem register_twice_counterexample :
    ((register (register ⟨initialPointer, [⟨1, "u", "a"⟩, ⟨2, "u", "b"⟩]⟩ [] (some 5) "u" "p" none).1
        [] (some 6) "u" "q" none).2.1 = (none, none))
    ∧ ¬ (((register (register ⟨initialPointer, [⟨1, "u", "a"⟩, ⟨2, "u", "b"⟩]⟩ [] (some 5) "u" "p" none).1
        [] (some 6) "u" "q" none).1.store.filter (fun r => r.username == "u")).length = 1) := by
  decide

/-- C1 amended: when neither the initial store nor either pulled snapshot
holds a record with username u, registering u twice (any ids, passwords and
channel responses) answers `(None, None)` on the second call and leaves the
store with exactly one record whose username equals u. -/
theorem register_twice_conflict (st : BotState) (snap1 snap2 : Store)
    (m1 m2 : Messg) (u p1 p2 : String) (er1 er2 : Option String)
    (h0 : ∀ r ∈ st.store, r.username ≠ u)
    (h1 : ∀ r ∈ snap1, r.username ≠ u)
    (h2 : ∀ r ∈ snap2, r.username ≠ u) :
    ((register (register st snap1 m1 u p1 er1).1 snap2 m2 u p2 er2).2.1 = (none, none))
    ∧ (((register (register st snap1 m1 u p1 er1).1 snap2 m2 u p2 er2).1.store.filter
        (fun r => r.username == u)).length = 1) := by
  have hfind1 : (st.store ++ snap1).find? (fun r => r.username == u) = none := by
    apply List.find?_eq_none.mpr
    intro y hy
    rcases List.mem_append.mp hy with hy | hy
    · simpa using h0 y hy
    · simpa using h1 y hy
  rw [register_of_find_none st snap1 m1 u p1 er1 hfind1]
  dsimp only
  have hsome : ((((st.store ++ snap1) ++ [(⟨readChatId m1, u, p1⟩ : UserRecord)]) ++ snap2).find?
      (fun r => r.username == u)).isSome := by
    apply List.find?_isSome.mpr
    refine ⟨⟨readChatId m1, u, p1⟩, ?_, by simp⟩
    exact List.mem_append_left _ (List.mem_append_right _ (List.mem_singleton_self _))
  obtain ⟨r0, hr0⟩ := Option.isSome_iff_exists.mp hsome
  rw [register_of_find_some ⟨st.pointer, (st.store ++ snap1) ++ [(⟨readChatId m1, u, p1⟩ : UserRecord)]⟩
    snap2 m2 u p2 er2 r0 hr0]
  refine ⟨rfl, ?_⟩
  dsimp only
  have f0 : st.store.filter (fun r => r.username == u) = [] :=
    List.filter_eq_nil_iff.mpr (fun y hy => by simpa using h0 y hy)
  have f1 : snap1.filter (fun r => r.username == u) = [] :=
    List.filter_eq_nil_iff.mpr (fun y hy => by simpa using h1 y hy)
  have f2 : snap2.filter (fun r => r.username == u) = [] :=
    List.filter_eq_nil_iff.mpr (fun y hy => by simpa using h2 y hy)
  simp [List.filter_append, f0, f1, f2]

/-- C1 witness: two registrations of u on the empty store with empty
snapshots — the second answers `(None, None)` and exactly one u record
remains. -/
theorem register_twice_conflict_witness :
    ((register (register ⟨initialPointer, []⟩ [] (some 5) "u" "p" none).1
        [] (some 6) "u" "q" none).2.1 = (none, none))
    ∧ (((register (register ⟨initialPointer, []⟩ [] (some 5) "u" "p" none).1
        [] (some 6) "u" "q" none).1.store.filter (fun r => r.username == "u")).length = 1) :=
  register_twice_conflict ⟨initialPointer, []⟩ [] [] (some 5) (some 6) "u" "p" "q" none none
    (by decide) (by decide) (by decide)

/-- C3 counterexample: with one record already in the store and a disjoint
one-record snapshot, the store right after the pull (observed through
sighin, which does not mutate the store after its pull) is the two-record
append, not the fetched snapshot alone. -/
theorem pull_replace_counterexample :
    (sighin ⟨initialPointer, [⟨1, "a", "x"⟩]⟩ [⟨2, "b", "y"⟩] "z" "w").1.store
      = [⟨1, "a", "x"⟩, ⟨2, "b", "y"⟩]
    ∧ ¬ ((sighin ⟨initialPointer, [⟨1, "a", "x"⟩]⟩ [⟨2, "b", "y"⟩] "z" "w").1.store
      = [⟨2, "b", "y"⟩]) := by
  decide

/-- C3 amended: the successful pull at the start of register and sighin
appends the fetched snapshot records after the records already stored — it
does not clear the table first.  Register with a duplicate username returns
with store `old ++ snapshot`, with a fresh username it appends the new
record after that, and sighin always returns with store `old ++ snapshot`. -/
theorem pull_appends_snapshot (st : BotState) (snap : Store) (m : Messg)
    (u p : String) (er : Option String) :
    ((∃ r ∈ st.store ++ snap, r.username = u) →
      (register st snap m u p er).1.store = st.store ++ snap)
    ∧ ((∀ r ∈ st.store ++ snap, r.username ≠ u) →
      (register st snap m u p er).1.store = (st.store ++ snap) ++ [⟨readChatId m, u, p⟩])
    ∧ (sighin st snap u p).1.store = st.store ++ snap := by
  refine ⟨?_, ?_, ?_⟩
  · intro hex
    have hsome : ((st.store ++ snap).find? (fun r => r.username == u)).isSome := by
      apply List.find?_isSome.mpr
      obtain ⟨r, hr, hru⟩ := hex
      exact ⟨r, hr, by simp [hru]⟩
    obtain ⟨r0, hr0⟩ := Option.isSome_iff_exists.mp hsome
    rw [register_of_find_some st snap m u p er r0 hr0]
  · intro hall
    have hnone : (st.store ++ snap).find? (fun r => r.username == u) = none :=
      List.find?_eq_none.mpr (fun y hy => by simpa using hall y hy)
    rw [register_of_find_none st snap m u p er hnone]
  · cases hfind : (st.store ++ snap).find? (fun r => r.username == u) with
    | none => simp [sighin, hfind]
    | some r => cases hb : r.password == p <;> simp [sighin, hfind, hb]

/-- C3 witness: a one-record store pulled against a disjoint one-record
snapshot — a duplicate register leaves the two-record append, a fresh
register appends its record after it. -/
theorem pull_appends_snapshot_witness :
    ((register ⟨initialPointer, [⟨1, "a", "x"⟩]⟩ [⟨2, "b", "y"⟩] (some 9) "a" "q" none).1.store
      = [⟨1, "a", "x"⟩] ++ [⟨2, "b", "y"⟩])
    ∧ ((register ⟨initialPointer, [⟨1, "a", "x"⟩]⟩ [⟨2, "b", "y"⟩] (some 9) "c" "q" none).1.store
      = ([⟨1, "a", "x"⟩] ++ [⟨2, "b", "y"⟩]) ++ [⟨9, "c", "q"⟩]) :=
  ⟨(pull_appends_snapshot ⟨initialPointer, [⟨1, "a", "x"⟩]⟩ [⟨2, "b", "y"⟩] (some 9) "a" "q"
      none).1 ⟨⟨1, "a", "x"⟩, by decide, rfl⟩,
   (pull_appends_snapshot ⟨initialPointer, [⟨1, "a", "x"⟩]⟩ [⟨2, "b", "y"⟩] (some 9) "c" "q"
      none).2.1 (by decide)⟩

/-- C4 counterexample: an update push that fails with a channel error only
prints the error and returns `Except.ok ()` — the failure is not surfaced
to the caller; and a save whose trailing edit fails has already overwritten
the snapshot pointer within that same failed operation. -/
theorem push_failure_counterexample :
    (update_data ⟨initialPointer, []⟩ none).console = ["ChannelError"]
    ∧ (update_data ⟨initialPointer, []⟩ none).ret = Except.ok ()
    ∧ (update_data ⟨initialPointer, []⟩ none).ret ≠ Except.error ChannelError.channelError
    ∧ (save_data ⟨initialPointer, []⟩ 1 2 (some "NEW") false).state.pointer ≠ initialPointer := by
  refine ⟨rfl, rfl, fun h => Except.noConfusion h, by decide⟩

/-- C4 amended: a save whose document send fails leaves the pointer and the
store unchanged and propagates the error to the caller; an update whose
edit fails, and a save whose post-send edit fails, also leave the store
unchanged and perform no retry, but their error is only printed — the call
returns `Except.ok ()` — and the failing save has already repointed the
globals at the document it did send. -/
theorem push_failure_behavior :
    (∀ (st : BotState) (c m : Int) (e : Bool),
      save_data st c m none e = ⟨st, Except.error ChannelError.channelError, []⟩)
    ∧ (∀ st : BotState,
      update_data st none = ⟨st, Except.ok (), ["ChannelError"]⟩)
    ∧ (∀ (st : BotState) (c m : Int) (fid : String),
      save_data st c m (some fid) false
        = ⟨⟨⟨c, m + 1, fid⟩, st.store⟩, Except.ok (), ["ChannelError"]⟩) :=
  ⟨fun _ _ _ _ => rfl, fun _ => rfl, fun _ _ _ _ => rfl⟩

/-- C5 counterexample: a successful update stores a blob under the fresh
channel id NEW yet leaves the pointer blob id at OLD — after a successful
update the pointer does not identify the newly stored blob. -/
theorem pointer_update_counterexample :
    (update_data ⟨⟨721641425, 430, "OLD"⟩, []⟩ (some "NEW")).ret = Except.ok ()
    ∧ (update_data ⟨⟨721641425, 430, "OLD"⟩, []⟩ (some "NEW")).state.pointer.blob_id = "OLD"
    ∧ ("OLD" : String) ≠ "NEW" := by
  refine ⟨rfl, rfl, by decide⟩

/-- C5 amended: only a successful save overwrites the snapshot pointer —
to the chat id, the successor message id and the sent blob id; a failed
save, any update (successful or not), register, sighin and delete all leave
the pointer exactly as it was. -/
theorem pointer_mutation_discipline :
    (∀ (st : BotState) (c m : Int) (fid : String) (e : Bool),
      (save_data st c m (some fid) e).state.pointer = ⟨c, m + 1, fid⟩)
    ∧ (∀ (st : BotState) (c m : Int) (e : Bool),
      (save_data st c m none e).state.pointer = st.pointer)
    ∧ (∀ (st : BotState) (er : Option String),
      (update_data st er).state.pointer = st.pointer)
    ∧ (∀ (st : BotState) (snap : Store) (m : Messg) (u p : String) (er : Option String),
      (register st snap m u p er).1.pointer = st.pointer)
    ∧ (∀ (st : BotState) (snap : Store) (u p : String),
      (sighin st snap u p).1.pointer = st.pointer)
    ∧ (∀ (st : BotState) (x : Int),
      (delete st x).1.pointer = st.pointer) := by
  refine ⟨?_, ?_, ?_, ?_, ?_, ?_⟩
  · intro st c m fid e; cases e <;> rfl
  · intro st c m e; rfl
  · intro st er; rfl
  · intro st snap m u p er
    cases h : (st.store ++ snap).find? (fun r => r.username == u) with
    | none => rw [register_of_find_none st snap m u p er h]
    | some r => rw [register_of_find_some st snap m u p er r h]
  · intro st snap u p
    cases h : (st.store ++ snap).find? (fun r => r.username == u) with
    | none => simp [sighin, h]
    | some r => cases hb : r.password == p <;> simp [sighin, h, hb]
  · intro st x
    cases h : st.store.find? (fun r => r.id == x) with
    | none => simp [delete, h]
    | some r => simp [delete, h]
